import Mathlib

/-!
Verification development for the Basesnapshot repository: a shallow
embedding of the Lark Base snapshot service (field/record conversion,
pagination, URL parsing, auth-state) together with theorems settling the
specification claims.

Conventions of the embedding:
* JavaScript numbers are modelled by `JsNum`: an exact rational for finite
  values (no double rounding/overflow), plus the infinities and NaN.
* `undefined`/absent object keys are modelled by `Option`; JS string
  truthiness (only `""` and `undefined` falsy among the values that occur)
  is `optTruthy` / `tokTruthy`.
* Fallible code returns `Except JsError`; an `async` loop that may not
  terminate is given fuel counting server requests, returning `none` when
  the fuel runs out before the loop exits.
-/

/-- Model of a JavaScript `Error`: only the message is observed by the code. -/
structure JsError where
  message : String
deriving DecidableEq, Repr

/-- Model of a JavaScript number: an exact rational for finite values,
plus the two infinities and NaN. -/
inductive JsNum where
  | fin (q : ℚ)
  | posInf
  | negInf
  | nan
deriving DecidableEq, Repr

/-- Model of JavaScript `isNaN` on a number. -/
def jsIsNaN : JsNum → Bool
  | .nan => true
  | _ => false

/-- JS truthiness of a `string | undefined` value: `undefined` and `""` are falsy. -/
def optTruthy : Option String → Bool
  | none => false
  | some s => s ≠ ""

/-- Truthiness of a continuation token (`string | null | undefined`). -/
def tokTruthy : Option String → Bool := optTruthy

/-- First truthy value of a JS `a || b || ...` chain over optional strings. -/
def firstTruthy : List (Option String) → Option String
  | [] => none
  | o :: rest => if optTruthy o then o else firstTruthy rest

/-- Literal-prefix test: if `pat` is a prefix of `cs`, return the remainder. -/
def dropLit : List Char → List Char → Option (List Char)
  | [], cs => some cs
  | _ :: _, [] => none
  | p :: ps, c :: cs => if p = c then dropLit ps cs else none

/-- Model of JS `String.prototype.includes` (substring test). -/
def jsIncludesAux (pat : List Char) : List Char → Bool
  | [] => (dropLit pat []).isSome
  | c :: rest => (dropLit pat (c :: rest)).isSome || jsIncludesAux pat rest

/-- Model of JS `s.includes(pat)`. -/
def jsIncludes (s pat : String) : Bool :=
  jsIncludesAux pat.data s.data

/-- ASCII alphanumeric character class `[a-zA-Z0-9]`. -/
def isAlnum (c : Char) : Bool := c.isAlpha || c.isDigit

/-- Leading decimal digits of a character list, as digit values, with the rest. -/
def parseDigits : List Char → (List Nat × List Char)
  | [] => ([], [])
  | c :: cs =>
    if c.isDigit then
      let (ds, rest) := parseDigits cs
      ((c.toNat - 48) :: ds, rest)
    else ([], c :: cs)

/-- Value of a digit list read most significant first. -/
def digitsToNat (ds : List Nat) : Nat := ds.foldl (fun a d => 10 * a + d) 0

/-- Leading JS whitespace (the subset relevant here) is skipped by `parseFloat`. -/
def skipWs : List Char → List Char
  | c :: cs => if c = ' ' ∨ c = '\t' ∨ c = '\n' ∨ c = '\r' then skipWs cs else c :: cs
  | [] => []

/-- Model of JS `parseFloat`: skip leading whitespace, then read an optional
sign and the longest decimal-literal prefix (`Infinity`, digits with optional
fraction, or a leading-dot fraction, with an optional exponent); trailing
garbage is ignored; no valid prefix yields NaN. Finite literals are modelled
exactly as rationals (no IEEE rounding or overflow). -/
def parseFloat (s : String) : JsNum :=
  let cs := skipWs s.data
  let signAndRest : Int × List Char :=
    match cs with
    | '+' :: r => (1, r)
    | '-' :: r => (-1, r)
    | _ => (1, cs)
  let sign := signAndRest.1
  let cs := signAndRest.2
  if (dropLit "Infinity".data cs).isSome then
    if sign = 1 then .posInf else .negInf
  else
    let (ip, cs1) := parseDigits cs
    let fracAndRest : List Nat × List Char :=
      match cs1 with
      | '.' :: r => parseDigits r
      | _ => ([], cs1)
    let fp := fracAndRest.1
    let cs2 := fracAndRest.2
    if ip = [] ∧ fp = [] then .nan
    else
      let ex : Int :=
        match cs2 with
        | 'e' :: r | 'E' :: r =>
          let esignAndRest : Int × List Char :=
            match r with
            | '+' :: r2 => (1, r2)
            | '-' :: r2 => (-1, r2)
            | _ => (1, r)
          let ed := (parseDigits esignAndRest.2).1
          if ed = [] then 0 else esignAndRest.1 * (digitsToNat ed : Int)
        | _ => 0
      let mant : ℚ := (digitsToNat ip : ℚ) + (digitsToNat fp : ℚ) / ((10 : ℚ) ^ fp.length)
      .fin ((sign : ℚ) * mant * (10 : ℚ) ^ ex)

/-- Decimal digits of the fractional part `r / d` (long division), stopping at a
zero remainder or after `fuel` digits. -/
def fracDigits : Nat → Nat → Nat → List Char
  | 0, _, _ => []
  | _ + 1, 0, _ => []
  | fuel + 1, r, d => Char.ofNat (48 + (r * 10) / d) :: fracDigits fuel ((r * 10) % d) d

/-- Decimal rendering of a rational, exact when the expansion terminates within
20 digits; models JS number-to-string for the decimal values reached here. -/
def ratToString (q : ℚ) : String :=
  let n := q.num.natAbs
  let d := q.den
  let ipart := Nat.repr (n / d)
  let frac := fracDigits 20 (n % d) d
  (if q < 0 then "-" else "") ++ ipart ++ (if frac = [] then "" else "." ++ frac.asString)

/-- Model of JS string conversion of a number (`String(n)` / template literal). -/
def jsNumToString : JsNum → String
  | .nan => "NaN"
  | .posInf => "Infinity"
  | .negInf => "-Infinity"
  | .fin q => ratToString q

/-! Section: Data model (src/unnamed/part_001: Lark Base API type definitions) -/

/-- User field value (`LarkUserValue`). -/
structure LarkUserValue where
  id : String
  name : Option String
  en_name : Option String
  email : Option String
  avatar_url : Option String
deriving DecidableEq, Repr

/-- Link (relation) field value (`LarkLinkValue`). -/
structure LarkLinkValue where
  record_id : String
  text : Option String
  table_id : Option String
deriving DecidableEq, Repr

/-- Attachment field value (`LarkAttachmentValue`). -/
structure LarkAttachmentValue where
  file_token : String
  name : String
  type : String
  size : JsNum
  url : Option String
deriving DecidableEq, Repr

/-- Select field value (`LarkSelectValue`). -/
structure LarkSelectValue where
  id : String
  text : String
deriving DecidableEq, Repr

/-- URL field value (`LarkUrlValue`). -/
structure LarkUrlValue where
  text : String
  link : String
deriving DecidableEq, Repr

/-- Possible cell values (`LarkCellValue`), mirroring the TS union
`string | number | boolean | user | user[] | link[] | attachment[]
 | select | select[] | url | null`. -/
inductive CellValue where
  | str (s : String)
  | num (n : JsNum)
  | bool (b : Bool)
  | user (u : LarkUserValue)
  | users (l : List LarkUserValue)
  | links (l : List LarkLinkValue)
  | atts (l : List LarkAttachmentValue)
  | selectVal (v : LarkSelectValue)
  | selects (l : List LarkSelectValue)
  | urlVal (v : LarkUrlValue)
  | null
deriving DecidableEq, Repr

/-- Select option carried in a field property (`LarkSelectOption`); `id` is
optional (the API mints ids for new options). -/
structure LarkSelectOption where
  id : Option String
  name : String
  color : Option Int
deriving DecidableEq, Repr

/-- Field property bag (`LarkFieldProperty`); every key is optional. -/
structure LarkFieldProperty where
  options : Option (List LarkSelectOption)
  formatter : Option String
  date_formatter : Option String
  auto_fill : Option Bool
  multiple : Option Bool
  table_id : Option String
  link_table_id : Option String
  back_field_id : Option String
  formula_expression : Option String
deriving DecidableEq, Repr

/-- The all-absent property bag. -/
def emptyProperty : LarkFieldProperty :=
  ⟨none, none, none, none, none, none, none, none, none⟩

/-- Field definition (`LarkField`). `ui_type` is kept as the runtime string
(it is erased at runtime and compared as a string by the code), optional
because the API may omit it. -/
structure LarkField where
  field_id : String
  field_name : String
  type : Nat
  ui_type : Option String
  is_primary : Option Bool
  property : Option LarkFieldProperty
deriving DecidableEq, Repr

/-- Table descriptor (`LarkTable`). -/
structure LarkTable where
  table_id : String
  name : String
  revision : Nat
deriving DecidableEq, Repr

/-- Base (app) descriptor (`LarkBase`). -/
structure LarkBase where
  app_token : String
  name : String
  folder_token : Option String
  url : Option String
deriving DecidableEq, Repr

/-! Section: Snapshot service constants (src/unnamed/part_004 lines 22-96) -/

/-- Field types that need conversion to static values (`DYNAMIC_FIELD_TYPES`). -/
def DYNAMIC_FIELD_TYPES : List String :=
  ["SingleLink", "DuplexLink", "Lookup", "Formula", "User", "CreatedUser",
   "ModifiedUser", "Attachment"]

/-- Field types not supported for table creation (`UNSUPPORTED_FIELD_TYPES`). -/
def UNSUPPORTED_FIELD_TYPES : List String :=
  ["Rating", "Stage", "Currency", "Email", "Location", "Barcode", "Button",
   "AutoNumber"]

/-- Field type numbers not supported for table creation (`UNSUPPORTED_TYPE_NUMBERS`). -/
def UNSUPPORTED_TYPE_NUMBERS : List Nat :=
  [11, 18, 19, 20, 21, 1001, 1002, 1003, 1004, 1005, 24, 1050, 1051, 22, 23, 3001]

/-- The inline numeric-type list `[11, 18, 19, 20, 21, 1003, 1004]` used by the
dynamic-field checks in `convertFieldDefinitions` and `convertRecordValues`. -/
def dynamicTypeNumbers : List Nat := [11, 18, 19, 20, 21, 1003, 1004]

/-- Numeric type id assigned to a symbolic type by `FIELD_TYPE_MAP`. -/
def FIELD_TYPE_MAP : String → Option Nat
  | "Text" => some 1
  | "Number" => some 2
  | "SingleSelect" => some 3
  | "MultiSelect" => some 4
  | "DateTime" => some 5
  | "Checkbox" => some 7
  | "User" => some 11
  | "Phone" => some 13
  | "Url" => some 15
  | "Attachment" => some 17
  | "SingleLink" => some 18
  | "DuplexLink" => some 21
  | "Lookup" => some 19
  | "Formula" => some 20
  | "AutoNumber" => some 1005
  | "CreatedTime" => some 1001
  | "ModifiedTime" => some 1002
  | "CreatedUser" => some 1003
  | "ModifiedUser" => some 1004
  | "Barcode" => some 23
  | "Progress" => some 22
  | "Currency" => some 1050
  | "Rating" => some 24
  | "Email" => some 1051
  | "Location" => some 22
  | _ => none

/-! Section: Value conversion (src/unnamed/part_004: SnapshotService) -/

/-- Escape a string for the JSON renderings below (quote and backslash;
control-character escapes are omitted, no such input occurs here). -/
def jsonEscape (s : String) : String :=
  s.data.foldl
    (fun acc c =>
      if c = '\\' then acc ++ "\\\\"
      else if c = '"' then acc ++ "\\\"" else acc.push c) ""

/-- JSON rendering of a string. -/
def jsonOfString (s : String) : String := "\"" ++ jsonEscape s ++ "\""

/-- Key/value pair rendering for present keys only. -/
def jsonFields (kvs : List (String × Option String)) : String :=
  "\x7b" ++ String.intercalate ","
    (kvs.filterMap fun kv =>
      kv.2.map fun v => jsonOfString kv.1 ++ ":" ++ jsonOfString v) ++ "\x7d"

/-- Model of `JSON.stringify` on a user value (keys in declaration order). -/
def jsonOfUser (u : LarkUserValue) : String :=
  jsonFields [("id", some u.id), ("name", u.name), ("en_name", u.en_name),
              ("email", u.email), ("avatar_url", u.avatar_url)]

/-- Model of `JSON.stringify` on a link value (keys in declaration order). -/
def jsonOfLink (lk : LarkLinkValue) : String :=
  jsonFields [("record_id", some lk.record_id), ("text", lk.text),
              ("table_id", lk.table_id)]

/-- Recursive text extraction of `extractTextFromValue` applied to one user
element: `text`/`value` keys absent, so `name` if present, then `en_name`,
else `JSON.stringify`. -/
def extractUserText (u : LarkUserValue) : String :=
  match u.name with
  | some s => s
  | none =>
    match u.en_name with
    | some s => s
    | none => jsonOfUser u

/-- Text extraction on a link element: `text` if present else `JSON.stringify`. -/
def extractLinkText (lk : LarkLinkValue) : String :=
  match lk.text with
  | some s => s
  | none => jsonOfLink lk

/-- Text extraction on an attachment element: `name` is always present. -/
def extractAttText (a : LarkAttachmentValue) : String := a.name

/-- Text extraction on a select element: `text` is always present. -/
def extractSelectText (v : LarkSelectValue) : String := v.text

/-- Model of `SnapshotService.extractTextFromValue` on a cell value
(part_004 lines 617-657): null → `""`; string passthrough; number/boolean →
`String(...)`; object → first of `text`, `value`, `name`, `en_name` present;
array → per-element extraction joined with `", "`; else `JSON.stringify`. -/
def extractTextFromValue : CellValue → String
  | .null => ""
  | .str s => s
  | .num n => jsNumToString n
  | .bool b => if b then "true" else "false"
  | .user u => extractUserText u
  | .selectVal v => v.text
  | .urlVal v => v.text
  | .users l => String.intercalate ", " (l.map extractUserText)
  | .links l => String.intercalate ", " (l.map extractLinkText)
  | .atts l => String.intercalate ", " (l.map extractAttText)
  | .selects l => String.intercalate ", " (l.map extractSelectText)

/-- The JS fallback chain `u.name || u.en_name || u.id` on a user value. -/
def userDisplayJoin (u : LarkUserValue) : String :=
  if optTruthy u.name then u.name.getD ""
  else if optTruthy u.en_name then u.en_name.getD ""
  else u.id

/-- Model of `SnapshotService.convertUserValue` (part_004 lines 532-541).
Non-user shapes follow the untyped JS property accesses: absent keys are
`undefined`, and `Array.prototype.join` renders `undefined` as `""`; the
`null` case is unreachable behind `convertDynamicValue`'s null guard. -/
def convertUserValue : CellValue → String
  | .users l => String.intercalate ", " (l.map userDisplayJoin)
  | .links l => String.intercalate ", " (l.map fun _ => "")
  | .atts l => String.intercalate ", " (l.map fun a => a.name)
  | .selects l => String.intercalate ", " (l.map fun v => v.id)
  | .user u => userDisplayJoin u
  | .selectVal v => v.id
  | _ => ""

/-- Model of `SnapshotService.convertLinkValue` (part_004 lines 546-554):
non-arrays → `""`; arrays → `link.text || link.record_id` joined with `", "`
(again with `undefined` rendered `""` on non-link element shapes). -/
def convertLinkValue : CellValue → String
  | .links l =>
    String.intercalate ", "
      (l.map fun lk => if optTruthy lk.text then lk.text.getD "" else lk.record_id)
  | .users l => String.intercalate ", " (l.map fun _ => "")
  | .atts l => String.intercalate ", " (l.map fun _ => "")
  | .selects l => String.intercalate ", " (l.map fun v => v.text)
  | _ => ""

/-- Model of `SnapshotService.convertAttachmentValue` (part_004 lines 559-568):
non-arrays → `""`; arrays → `att.name || att.file_token || ''` per element,
empty entries dropped, joined with `", "`. -/
def convertAttachmentValue : CellValue → String
  | .atts l =>
    String.intercalate ", "
      ((l.map fun a =>
          if a.name ≠ "" then a.name
          else if a.file_token ≠ "" then a.file_token else "").filter (· ≠ ""))
  | .users l =>
    String.intercalate ", "
      ((l.map fun u => if optTruthy u.name then u.name.getD "" else "").filter (· ≠ ""))
  | .links l => String.intercalate ", " ((l.map fun _ => "").filter (· ≠ ""))
  | .selects l => String.intercalate ", " ((l.map fun _ => "").filter (· ≠ ""))
  | _ => ""

/-- Model of `SnapshotService.convertLookupValue` (part_004 lines 573-587):
arrays → per-element extraction, empty entries dropped, joined with `", "`;
non-null objects → `extractTextFromValue`; primitives → `String(value)`
(the `null` case is unreachable behind the null guard). -/
def convertLookupValue : CellValue → String
  | .users l => String.intercalate ", " ((l.map extractUserText).filter (· ≠ ""))
  | .links l => String.intercalate ", " ((l.map extractLinkText).filter (· ≠ ""))
  | .atts l => String.intercalate ", " ((l.map extractAttText).filter (· ≠ ""))
  | .selects l => String.intercalate ", " ((l.map extractSelectText).filter (· ≠ ""))
  | .user u => extractTextFromValue (.user u)
  | .selectVal v => extractTextFromValue (.selectVal v)
  | .urlVal v => extractTextFromValue (.urlVal v)
  | .str s => s
  | .num n => jsNumToString n
  | .bool b => if b then "true" else "false"
  | .null => "null"

/-- A `string | number` result, as returned by `convertDynamicValue` and
`convertFormulaValue`. -/
inductive StrOrNum where
  | s (v : String)
  | n (v : JsNum)
deriving DecidableEq, Repr

/-- Model of `SnapshotService.convertFormulaValue` (part_004 lines 592-612):
numbers and strings pass through; arrays → per-element extraction joined with
`", "`; objects → `extractTextFromValue`; else `String(value)`. -/
def convertFormulaValue : CellValue → StrOrNum
  | .num n => .n n
  | .str s => .s s
  | .users l => .s (String.intercalate ", " (l.map extractUserText))
  | .links l => .s (String.intercalate ", " (l.map extractLinkText))
  | .atts l => .s (String.intercalate ", " (l.map extractAttText))
  | .selects l => .s (String.intercalate ", " (l.map extractSelectText))
  | .user u => .s (extractTextFromValue (.user u))
  | .selectVal v => .s (extractTextFromValue (.selectVal v))
  | .urlVal v => .s (extractTextFromValue (.urlVal v))
  | .bool b => .s (if b then "true" else "false")
  | .null => .s "null"

/-- Model of JS `String(value)` on a cell value (objects render as
`[object Object]`, arrays join their elements with `","`). -/
def jsToString : CellValue → String
  | .null => "null"
  | .str s => s
  | .num n => jsNumToString n
  | .bool b => if b then "true" else "false"
  | .user _ => "[object Object]"
  | .selectVal _ => "[object Object]"
  | .urlVal _ => "[object Object]"
  | .users l => String.intercalate "," (l.map fun _ => "[object Object]")
  | .links l => String.intercalate "," (l.map fun _ => "[object Object]")
  | .atts l => String.intercalate "," (l.map fun _ => "[object Object]")
  | .selects l => String.intercalate "," (l.map fun _ => "[object Object]")

/-- Model of `SnapshotService.convertDynamicValue` (part_004 lines 497-527):
null guard, then dispatch on the `ui_type` string; unknown or absent tags fall
to `String(value)`. -/
def convertDynamicValue (value : CellValue) (uiType : Option String) : StrOrNum :=
  if value = .null then .s ""
  else
    match uiType with
    | some "User" | some "CreatedUser" | some "ModifiedUser" => .s (convertUserValue value)
    | some "SingleLink" | some "DuplexLink" => .s (convertLinkValue value)
    | some "Lookup" => .s (convertLookupValue value)
    | some "Formula" => convertFormulaValue value
    | some "Attachment" => .s (convertAttachmentValue value)
    | _ => .s (jsToString value)

/-- Model of `SnapshotService.sanitizeNumberValue` (part_004 lines 480-492):
null/empty-string → null; numbers kept unless NaN; strings re-parsed with
`parseFloat`, NaN → null; every other shape → null. -/
def sanitizeNumberValue : CellValue → Option JsNum
  | .null => none
  | .num n => if jsIsNaN n then none else some n
  | .str s =>
    if s = "" then none
    else
      let q := parseFloat s
      if jsIsNaN q then none else some q
  | _ => none

/-- The dynamic-field check used in `convertFieldDefinitions` and
`convertRecordValues` (part_004 lines 333-334 and 440-441): symbolic
`ui_type` membership in `DYNAMIC_FIELD_TYPES` OR numeric `type` membership
in the inline list `[11, 18, 19, 20, 21, 1003, 1004]`. -/
def isDynamicField (f : LarkField) : Bool :=
  (match f.ui_type with
   | some u => DYNAMIC_FIELD_TYPES.contains u
   | none => false) || dynamicTypeNumbers.contains f.type

/-- JS object property access on a record's `fields` map, modelled as lookup
in an association list (keys are unique in an API record). -/
def lookupField (name : String) : List (String × CellValue) → Option CellValue
  | [] => none
  | (k, v) :: rest => if k = name then some v else lookupField name rest

/-- The force-to-string applied to dynamic conversion results
(`typeof convertedValue === 'number' ? String(convertedValue) : convertedValue`). -/
def forceStr : StrOrNum → CellValue
  | .n q => .str (jsNumToString q)
  | .s t => .str t

/-- One iteration of the `convertRecordValues` loop (part_004 lines 429-472)
for a single source field: `none` means the loop `continue`s without writing
(field missing from the record or the target, null value, or a NaN numeric). -/
def convertFieldValue (fields : List (String × CellValue))
    (targetFieldNames : List String) (sourceField : LarkField) :
    Option (String × CellValue) :=
  match lookupField sourceField.field_name fields with
  | none => none
  | some v =>
    if sourceField.field_name ∈ targetFieldNames then
      if v = .null then none
      else if isDynamicField sourceField then
        some (sourceField.field_name, forceStr (convertDynamicValue v sourceField.ui_type))
      else if sourceField.ui_type = some "Number" ∨ sourceField.ui_type = some "Currency"
          ∨ sourceField.ui_type = some "Progress" ∨ sourceField.ui_type = some "Rating" then
        match sanitizeNumberValue v with
        | some q => some (sourceField.field_name, .num q)
        | none => none
      else if UNSUPPORTED_TYPE_NUMBERS.contains sourceField.type then
        some (sourceField.field_name, .str (extractTextFromValue v))
      else some (sourceField.field_name, v)
    else none

/-- Model of `SnapshotService.convertRecordValues` (part_004 lines 422-475):
iterate the source field list (not the record's own keys) and assemble the
converted map; the JS object built by successive assignments is modelled as
the association list of the assignments in loop order (source field names in
one table are distinct, so no key is assigned twice). -/
def convertRecordValues (fields : List (String × CellValue))
    (sourceFields : List LarkField) (targetFieldNames : List String) :
    List (String × CellValue) :=
  sourceFields.filterMap (convertFieldValue fields targetFieldNames)

/-- A converted field definition (`Partial<LarkField>` as produced by
`convertFieldDefinitions`): the keys the service writes. -/
structure ConvertedField where
  field_name : String
  type : Nat
  ui_type : Option String
  property : Option LarkFieldProperty
deriving DecidableEq, Repr

/-- Model of `SnapshotService.sanitizeProperty` (part_004 lines 387-416):
strip link/formula-related keys; for select fields keep only the option list
with ids dropped and unnamed options removed (an option's cleaned form carries
`name` and `color` only); otherwise return the stripped bag, or nothing when
no key remains. -/
def sanitizeProperty (property : Option LarkFieldProperty) (uiType : Option String) :
    Option LarkFieldProperty :=
  match property with
  | none => none
  | some p =>
    let sanitized : LarkFieldProperty :=
      { p with table_id := none, link_table_id := none, back_field_id := none,
               formula_expression := none }
    if uiType = some "SingleSelect" ∨ uiType = some "MultiSelect" then
      match sanitized.options with
      | some opts =>
        some { emptyProperty with
               options := some ((opts.filter fun o => o.name ≠ "").map
                 fun o => { id := none, name := o.name, color := o.color }) }
      | none => some { emptyProperty with options := some [] }
    else
      if sanitized.options.isSome || sanitized.formatter.isSome
          || sanitized.date_formatter.isSome || sanitized.auto_fill.isSome
          || sanitized.multiple.isSome then
        some sanitized
      else none

/-- Conversion of one field definition: the body of the `map` in
`SnapshotService.convertFieldDefinitions` (part_004 lines 331-381). -/
def convertFieldDef (field : LarkField) : ConvertedField :=
  let isDynamic := isDynamicField field
  let isUnsupported :=
    match field.ui_type with
    | some u => UNSUPPORTED_FIELD_TYPES.contains u
    | none => false
  if isDynamic then
    -- `FIELD_TYPE_MAP.Text = 1`
    { field_name := field.field_name, type := 1, ui_type := some "Text", property := none }
  else
    let unsupportedByNumber := UNSUPPORTED_TYPE_NUMBERS.contains field.type
    if isUnsupported || unsupportedByNumber then
      if field.type = 24 ∨ field.type = 1050 ∨ field.ui_type = some "Rating"
          ∨ field.ui_type = some "Currency" then
        -- `FIELD_TYPE_MAP.Number = 2`
        { field_name := field.field_name, type := 2, ui_type := some "Number",
          property := none }
      else
        { field_name := field.field_name, type := 1, ui_type := some "Text",
          property := none }
    else
      { field_name := field.field_name, type := field.type, ui_type := field.ui_type,
        property := sanitizeProperty field.property field.ui_type }

/-- Model of `SnapshotService.convertFieldDefinitions` (part_004 lines 328-382). -/
def convertFieldDefinitions (sourceFields : List LarkField) : List ConvertedField :=
  sourceFields.map convertFieldDef

/-! Section: API client: pagination and fallbacks (src/unnamed/part_002) -/

/-- One page of a list response (`response.data?.items` / `?.page_token`;
both may be absent). -/
structure PageData (α : Type) where
  items : Option (List α)
  page_token : Option String
deriving Repr

/-- A server behaviour: the outcome (response or thrown error) of the `k`-th
request of a pagination loop, given the continuation token it carries. A
misbehaving server is any such function. -/
abbrev PagedServer (α : Type) := Nat → Option String → Except JsError (PageData α)

/-- The pagination loop shared by `listFields` (`MAX_PAGES = 10`, lines
343-385) and `listRecords` (`MAX_PAGES = 100`, lines 433-474): request,
accumulate items, bump the page counter, stop on a repeated truthy token, on
reaching `MAX_PAGES`, or on a falsy token. Fuel counts server requests;
`none` means the fuel ran out before the loop exited. -/
def listPagedAux {α : Type} (maxPages : Nat) (server : PagedServer α) :
    Nat → Nat → Option String → List α → Option (Except JsError (List α))
  | 0, _, _, _ => none
  | fuel + 1, pageCount, pageToken, acc =>
    match server pageCount pageToken with
    | .error e => some (.error e)
    | .ok resp =>
      let acc2 := acc ++ resp.items.getD []
      let newToken := resp.page_token
      let pageCount2 := pageCount + 1
      if tokTruthy newToken ∧ newToken = pageToken then some (.ok acc2)
      else if maxPages ≤ pageCount2 then some (.ok acc2)
      else if tokTruthy newToken then listPagedAux maxPages server fuel pageCount2 newToken acc2
      else some (.ok acc2)

/-- Model of `LarkApiClient.listFields` run against a server behaviour. -/
def listFieldsRun (server : PagedServer LarkField) (fuel : Nat) :
    Option (Except JsError (List LarkField)) :=
  listPagedAux 10 server fuel 0 none []

/-- Model of `LarkApiClient.listRecords` run against a server behaviour.
(`LarkRecord`s only flow through the loop; the element type is kept abstract
as the record structure, using the field map directly.) -/
def listRecordsRun (server : PagedServer (String × List (String × CellValue)))
    (fuel : Nat) :
    Option (Except JsError (List (String × List (String × CellValue)))) :=
  listPagedAux 100 server fuel 0 none []

/-- The pagination loop of `listTables` (part_002 lines 215-237): no repeated
token check and no page cap, it loops while the token is truthy. -/
def listTablesAux (server : PagedServer LarkTable) :
    Nat → Nat → Option String → List LarkTable → Option (Except JsError (List LarkTable))
  | 0, _, _, _ => none
  | fuel + 1, k, pageToken, acc =>
    match server k pageToken with
    | .error e => some (.error e)
    | .ok resp =>
      let acc2 := acc ++ resp.items.getD []
      let newToken := resp.page_token
      if tokTruthy newToken then listTablesAux server fuel (k + 1) newToken acc2
      else some (.ok acc2)

/-- Model of `LarkApiClient.listTables` run against a server behaviour. -/
def listTablesRun (server : PagedServer LarkTable) (fuel : Nat) :
    Option (Except JsError (List LarkTable)) :=
  listTablesAux server fuel 0 none []

/-- Termination of `listTables` against a server behaviour: some finite number
of requests completes the loop. -/
def listTablesTerminates (server : PagedServer LarkTable) : Prop :=
  ∃ fuel, (listTablesRun server fuel).isSome

/-- The permission-style error test of `listFieldsWithFallback` and
`listRecordsWithFallback` (substring checks on the message). -/
def permStyleListErr (e : JsError) : Bool :=
  jsIncludes e.message "1254002" || jsIncludes e.message "permission"
    || jsIncludes e.message "Fail" || jsIncludes e.message "timeout"

/-- The permission-style error test of `listTablesWithFallback` (no
`timeout` check there). -/
def permStyleTablesErr (e : JsError) : Bool :=
  jsIncludes e.message "1254002" || jsIncludes e.message "permission"
    || jsIncludes e.message "Fail"

/-- The catch handler shared by `listFieldsWithFallback` (lines 391-406) and
`listRecordsWithFallback` (lines 479-494): absorb a permission-style error
into an empty list, re-raise anything else. -/
def absorbPermErr {α : Type} (r : Except JsError (List α)) : Except JsError (List α) :=
  match r with
  | .ok l => .ok l
  | .error e => if permStyleListErr e then .ok [] else .error e

/-- Model of `LarkApiClient.listFieldsWithFallback`. -/
def listFieldsWithFallbackRun (server : PagedServer LarkField) (fuel : Nat) :
    Option (Except JsError (List LarkField)) :=
  (listFieldsRun server fuel).map absorbPermErr

/-- Model of `LarkApiClient.listRecordsWithFallback`. -/
def listRecordsWithFallbackRun (server : PagedServer (String × List (String × CellValue)))
    (fuel : Nat) :
    Option (Except JsError (List (String × List (String × CellValue)))) :=
  (listRecordsRun server fuel).map absorbPermErr

/-- Model of `LarkApiClient.getTable` (part_002 lines 243-260) given the
outcome of the underlying request: on any error it synthesizes the minimal
table object (it never returns null). -/
def getTableRun (fetch : Except JsError LarkTable) (tableId : String) : LarkTable :=
  match fetch with
  | .ok t => t
  | .error _ => ⟨tableId, "Table " ++ tableId, 0⟩

/-- The catch handler of `listTablesWithFallback` (part_002 lines 266-282):
on a permission-style error with a truthy table id from the URL, return the
single table obtained by `getTable`; otherwise re-raise. -/
def tablesFallbackHandler (tableIdFromUrl : Option String)
    (fetch : Except JsError LarkTable) (r : Except JsError (List LarkTable)) :
    Except JsError (List LarkTable) :=
  match r with
  | .ok l => .ok l
  | .error e =>
    if tokTruthy tableIdFromUrl ∧ permStyleTablesErr e then
      .ok [getTableRun fetch (tableIdFromUrl.getD "")]
    else .error e

/-- Model of `LarkApiClient.listTablesWithFallback`; `fetch` is the outcome of
the `getTable` request used by the fallback path. -/
def listTablesWithFallbackRun (server : PagedServer LarkTable) (fuel : Nat)
    (tableIdFromUrl : Option String) (fetch : Except JsError LarkTable) :
    Option (Except JsError (List LarkTable)) :=
  (listTablesRun server fuel).map (tablesFallbackHandler tableIdFromUrl fetch)

/-! Section: URL parsing (src/unnamed/part_002 lines 155-171) -/

/-- Leftmost match of the regex `PAT([a-zA-Z0-9]+)` where `PAT` is a literal:
scan positions left to right, and where the literal matches and at least one
alphanumeric follows, capture the maximal alphanumeric run. -/
def scanCaptureAux (pat : List Char) : List Char → Option String
  | [] => none
  | c :: rest =>
    match dropLit pat (c :: rest) with
    | some after =>
      let tok := after.takeWhile isAlnum
      if tok = [] then scanCaptureAux pat rest else some tok.asString
    | none => scanCaptureAux pat rest

/-- Capture group of the leftmost match of `PAT([a-zA-Z0-9]+)` in `url`. -/
def scanCapture (pat : String) (url : String) : Option String :=
  scanCaptureAux pat.data url.data

/-- Model of `LarkApiClient.parseBaseUrl`: the four patterns tried in order
(`/base/`, `app_token=`, `/bitable/`, `/wiki/`), throwing on no match. -/
def parseBaseUrl (url : String) : Except JsError String :=
  match scanCapture "/base/" url with
  | some t => .ok t
  | none =>
    match scanCapture "app_token=" url with
    | some t => .ok t
    | none =>
      match scanCapture "/bitable/" url with
      | some t => .ok t
      | none =>
        match scanCapture "/wiki/" url with
        | some t => .ok t
        | none => .error ⟨"Invalid Base URL format: " ++ url⟩

/-- Whether any of the four supported patterns matches the URL. -/
def matchesAnyPattern (url : String) : Bool :=
  (scanCapture "/base/" url).isSome || (scanCapture "app_token=" url).isSome
    || (scanCapture "/bitable/" url).isSome || (scanCapture "/wiki/" url).isSome

/-! Section: Auth service (src/src/services/authService.ts) -/

/-- Stored OAuth tokens for a session (`OAuthTokens`); `expiresAt` is a
millisecond timestamp. -/
structure OAuthTokens where
  accessToken : String
  refreshToken : String
  expiresAt : Int
  userId : String
  userName : String
deriving DecidableEq, Repr

/-- The user part of an auth state. -/
structure AuthUser where
  id : String
  name : String
deriving DecidableEq, Repr

/-- Authentication state (`AuthState`). -/
structure AuthState where
  isAuthenticated : Bool
  user : Option AuthUser
  expiresAt : Option Int
deriving DecidableEq, Repr

/-- Model of `AuthService.getAuthState` (authService.ts lines 261-281): the
token store is the in-memory session map, `now` is `Date.now()`. No stored
tokens, or `Date.now() >= tokens.expiresAt`, reports unauthenticated. -/
def getAuthState (store : String → Option OAuthTokens) (now : Int)
    (sessionId : String) : AuthState :=
  match store sessionId with
  | none => ⟨false, none, none⟩
  | some tokens =>
    if tokens.expiresAt ≤ now then ⟨false, none, none⟩
    else ⟨true, some ⟨tokens.userId, tokens.userName⟩, some tokens.expiresAt⟩

/-! Section: Snapshot orchestration (src/unnamed/part_004: createSnapshot) -/

/-- Structured snapshot error entry (`SnapshotError`). -/
structure SnapshotError where
  table : Option String
  record : Option String
  field : Option String
  message : String
  code : Option String
deriving DecidableEq, Repr

/-- Snapshot configuration (`SnapshotConfig`). -/
structure SnapshotConfig where
  sourceBaseUrl : String
  targetBaseName : String
  grantAdminPermission : Bool
  preserveAttachments : Option Bool
  selectedTableIds : Option (List String)
deriving DecidableEq, Repr

/-- Snapshot result (`SnapshotResult`). -/
structure SnapshotResult where
  success : Bool
  sourceBase : LarkBase
  targetBase : LarkBase
  tablesProcessed : Nat
  recordsProcessed : Nat
  fieldsConverted : Nat
  errors : List SnapshotError
  createdAt : String
deriving DecidableEq, Repr

/-- Outcome of one `processTable` call: either a normal return carrying the
errors it pushed itself (e.g. the no-fields entry), the records processed and
the `fieldsConverted` increment, or a thrown error (still carrying the pushes
and increments made before the throw). -/
inductive ProcOutcome where
  | ok (newErrors : List SnapshotError) (records : Nat) (fieldsInc : Nat)
  | err (newErrors : List SnapshotError) (fieldsInc : Nat) (e : JsError)
deriving Repr

/-- Observed outcomes of the awaited collaborator calls made by
`createSnapshot` during one run. `deleteDefaultTable` swallows every error in
its own try/catch and does not affect the result, so it is not modelled;
`processTable` is keyed by (source token, target token, table id, table name). -/
structure SnapshotEnv where
  resolveBaseAppToken : Except JsError String
  getBase : String → Except JsError LarkBase
  createBase : String → Except JsError LarkBase
  listTablesWithFallback : Except JsError (List LarkTable)
  processTable : String → String → String → String → ProcOutcome
  grantOutcome : Except JsError Unit
  dateSuffix : String
  nowIso : String

/-- The sequential awaits of `createSnapshot`'s try block before the table
loop (part_004 lines 149-161): resolve the source URL, fetch the source Base,
create the target Base, enumerate the source tables. An error in any of them
propagates to the surrounding catch. -/
def snapshotSetup (env : SnapshotEnv) (config : SnapshotConfig) :
    Except JsError (String × LarkBase × LarkBase × List LarkTable) := do
  let sourceAppToken ← env.resolveBaseAppToken
  let sourceBase ← env.getBase sourceAppToken
  let targetBase ← env.createBase config.targetBaseName
  let sourceTables ← env.listTablesWithFallback
  pure (sourceAppToken, sourceBase, targetBase, sourceTables)

/-- The table filter (part_004 lines 165-168): applied only when
`selectedTableIds` is present and non-empty. -/
def selectTables (config : SnapshotConfig) (tables : List LarkTable) : List LarkTable :=
  match config.selectedTableIds with
  | some sel => if 0 < sel.length then tables.filter (fun t => sel.contains t.table_id) else tables
  | none => tables

/-- Snapshot table name: source name plus `_snap_` and the date suffix. -/
def snapTableName (t : LarkTable) (suffix : String) : String :=
  t.name ++ "_snap_" ++ suffix

/-- The body of the per-table loop (part_004 lines 176-192) as a fold step
over (accumulated errors, records processed, fields converted). -/
def snapFoldStep (env : SnapshotEnv) (srcTok tgtTok suffix : String)
    (st : List SnapshotError × Nat × Nat) (t : LarkTable) :
    List SnapshotError × Nat × Nat :=
  match env.processTable srcTok tgtTok t.table_id (snapTableName t suffix) with
  | .ok newErrs n finc => (st.1 ++ newErrs, st.2.1 + n, st.2.2 + finc)
  | .err newErrs finc e =>
    (st.1 ++ (newErrs ++
      [⟨some t.name, none, none, "Failed to process table: " ++ e.message, none⟩]),
     st.2.1, st.2.2 + finc)

/-- Errors contributed by one table of the loop: its own pushes, plus the
catch-appended entry when it threw. -/
def tableStepErrors (env : SnapshotEnv) (srcTok tgtTok suffix : String)
    (t : LarkTable) : List SnapshotError :=
  match env.processTable srcTok tgtTok t.table_id (snapTableName t suffix) with
  | .ok newErrs _ _ => newErrs
  | .err newErrs _ e =>
    newErrs ++ [⟨some t.name, none, none, "Failed to process table: " ++ e.message, none⟩]

/-- Records contributed by one table of the loop (0 when it threw). -/
def tableStepRecords (env : SnapshotEnv) (srcTok tgtTok suffix : String)
    (t : LarkTable) : Nat :=
  match env.processTable srcTok tgtTok t.table_id (snapTableName t suffix) with
  | .ok _ n _ => n
  | .err _ _ _ => 0

/-- Fields-converted increment contributed by one table of the loop. -/
def tableStepFields (env : SnapshotEnv) (srcTok tgtTok suffix : String)
    (t : LarkTable) : Nat :=
  match env.processTable srcTok tgtTok t.table_id (snapTableName t suffix) with
  | .ok _ _ finc => finc
  | .err _ finc _ => finc

/-- Errors appended by the optional admin grant (part_004 lines 195-208). -/
def grantErrors (env : SnapshotEnv) (config : SnapshotConfig) : List SnapshotError :=
  if config.grantAdminPermission then
    match env.grantOutcome with
    | .ok _ => []
    | .error e =>
      [⟨none, none, none, "Failed to grant admin permission: " ++ e.message, none⟩]
  else []

/-- Model of `SnapshotService.createSnapshot` (part_004 lines 142-232): the
whole body is wrapped in try/catch, so the function is total — any error of
the setup phase produces the fatal result with empty Base descriptors and a
single error entry, and each table's error is appended while the loop
continues with the next table. -/
def createSnapshot (env : SnapshotEnv) (config : SnapshotConfig) : SnapshotResult :=
  match snapshotSetup env config with
  | .error e =>
    { success := false
      sourceBase := ⟨"", "", none, some config.sourceBaseUrl⟩
      targetBase := ⟨"", config.targetBaseName, none, none⟩
      tablesProcessed := 0, recordsProcessed := 0, fieldsConverted := 0
      errors := [⟨none, none, none, e.message, none⟩]
      createdAt := env.nowIso }
  | .ok (srcTok, sourceBase, targetBase, tables0) =>
    let sourceTables := selectTables config tables0
    let res := sourceTables.foldl
      (snapFoldStep env srcTok targetBase.app_token env.dateSuffix) ([], 0, 0)
    let errs := res.1 ++ grantErrors env config
    { success := errs.isEmpty
      sourceBase := sourceBase
      targetBase := targetBase
      tablesProcessed := sourceTables.length
      recordsProcessed := res.2.1
      fieldsConverted := res.2.2
      errors := errs
      createdAt := env.nowIso }

/-! Section: Theorems settling the claims -/

deriving instance DecidableEq for Except

/-- An option whose `isSome` is false is `none`. -/
theorem opt_none_of_isSome_false {α : Type} {o : Option α} (h : o.isSome = false) :
    o = none := by
  cases o with
  | none => rfl
  | some a => simp at h

/-- C8: parseBaseUrl extracts the app token from a `/base/<token>` path
segment or an `app_token=<token>` query parameter, and fails with an explicit
error on a URL matching none of the supported patterns, never returning a
token for it. -/
theorem parseBaseUrl_token_extraction :
    parseBaseUrl "https://x.larksuite.com/base/abc123" = .ok "abc123"
    ∧ parseBaseUrl "https://x.larksuite.com/?app_token=abc123" = .ok "abc123"
    ∧ (∀ url, matchesAnyPattern url = false →
        parseBaseUrl url = .error ⟨"Invalid Base URL format: " ++ url⟩)
    ∧ parseBaseUrl "https://example.com/home"
        = .error ⟨"Invalid Base URL format: " ++ "https://example.com/home"⟩ := by
  refine ⟨by rfl, by rfl, ?_, by rfl⟩
  intro url h
  unfold matchesAnyPattern at h
  rw [Bool.or_eq_false_iff, Bool.or_eq_false_iff, Bool.or_eq_false_iff] at h
  obtain ⟨⟨⟨h1, h2⟩, h3⟩, h4⟩ := h
  unfold parseBaseUrl
  rw [opt_none_of_isSome_false h1, opt_none_of_isSome_false h2,
      opt_none_of_isSome_false h3, opt_none_of_isSome_false h4]

/-- Witness for C8: instantiating the unmatched-URL clause at a concrete URL. -/
theorem parseBaseUrl_token_extraction_witness :
    parseBaseUrl "https://z.example.org/x" =
      .error ⟨"Invalid Base URL format: " ++ "https://z.example.org/x"⟩ :=
  parseBaseUrl_token_extraction.2.2.1 "https://z.example.org/x" (by rfl)

/-- C9: getAuthState reports a session authenticated only while the stored
expiry is in the future: no stored tokens, or an expiry at or before the
current time, reports unauthenticated. -/
theorem getAuthState_only_while_unexpired
    (store : String → Option OAuthTokens) (now : Int) (sessionId : String) :
    (store sessionId = none → getAuthState store now sessionId = ⟨false, none, none⟩)
    ∧ (∀ t, store sessionId = some t → t.expiresAt ≤ now →
        getAuthState store now sessionId = ⟨false, none, none⟩)
    ∧ ((getAuthState store now sessionId).isAuthenticated = true →
        ∃ t, store sessionId = some t ∧ now < t.expiresAt) := by
  refine ⟨fun h0 => ?_, fun t ht hle => ?_, fun hauth => ?_⟩
  · unfold getAuthState
    rw [h0]
  · unfold getAuthState
    simp [ht, hle]
  · unfold getAuthState at hauth
    cases h : store sessionId with
    | none =>
      rw [h] at hauth
      simp at hauth
    | some t =>
      rw [h] at hauth
      by_cases hle : t.expiresAt ≤ now
      · simp [hle] at hauth
      · exact ⟨t, rfl, lt_of_not_le hle⟩

/-- Witness for C9: a missing session and an expired session both report
unauthenticated. -/
theorem getAuthState_only_while_unexpired_witness :
    getAuthState (fun _ => none) 5 "s" = ⟨false, none, none⟩
    ∧ getAuthState (fun _ => some ⟨"a", "r", 4, "u", "n"⟩) 5 "s" = ⟨false, none, none⟩ :=
  ⟨(getAuthState_only_while_unexpired (fun _ => none) 5 "s").1 rfl,
   (getAuthState_only_while_unexpired (fun _ => some ⟨"a", "r", 4, "u", "n"⟩) 5 "s").2.1
     ⟨"a", "r", 4, "u", "n"⟩ rfl (by norm_num)⟩

/-- Claim-side helper: discard an absent or empty optional string. -/
def nonEmptyOpt : Option String → Option String
  | some s => if s = "" then none else some s
  | none => none

/-- Claim-side rule for one user value, in the spec's words: the first
non-empty of `name`, `en_name`, `id` (empty when none is). -/
def userDisplaySpec (u : LarkUserValue) : String :=
  (([u.name, u.en_name, some u.id].filterMap nonEmptyOpt).head?).getD ""

/-- The code's `name || en_name || id` chain computes the claim's first
non-empty rule. -/
theorem userDisplayJoin_eq_spec (u : LarkUserValue) :
    userDisplayJoin u = userDisplaySpec u := by
  obtain ⟨uid, uname, uen, _, _⟩ := u
  cases uname with
  | none =>
    cases uen with
    | none =>
      by_cases hid : uid = "" <;>
        simp [userDisplayJoin, userDisplaySpec, nonEmptyOpt, optTruthy, hid]
    | some s =>
      by_cases hs : s = "" <;> by_cases hid : uid = "" <;>
        simp [userDisplayJoin, userDisplaySpec, nonEmptyOpt, optTruthy, hs, hid]
  | some s =>
    cases uen with
    | none =>
      by_cases hs : s = "" <;> by_cases hid : uid = "" <;>
        simp [userDisplayJoin, userDisplaySpec, nonEmptyOpt, optTruthy, hs, hid]
    | some s2 =>
      by_cases hs : s = "" <;> by_cases hs2 : s2 = "" <;> by_cases hid : uid = "" <;>
        simp [userDisplayJoin, userDisplaySpec, nonEmptyOpt, optTruthy, hs, hs2, hid]

/-- C7: converting a User, CreatedUser, or ModifiedUser cell yields, for a
single value, the first non-empty of `name`, `en_name`, `id` (so
`{id:"u1", name:"Alice"}` converts to `"Alice"` and `{id:"u1"}` alone to
`"u1"`), and for an array, the per-element results joined with `", "`. -/
theorem convertUserValue_first_nonempty_rule :
    (∀ u, convertDynamicValue (.user u) (some "User") = .s (userDisplaySpec u))
    ∧ (∀ l, convertDynamicValue (.users l) (some "User") =
        .s (String.intercalate ", " (l.map userDisplaySpec)))
    ∧ (∀ v, convertDynamicValue v (some "CreatedUser") = convertDynamicValue v (some "User"))
    ∧ (∀ v, convertDynamicValue v (some "ModifiedUser") = convertDynamicValue v (some "User"))
    ∧ convertDynamicValue (.user ⟨"u1", some "Alice", none, none, none⟩) (some "User")
        = .s "Alice"
    ∧ convertDynamicValue (.user ⟨"u1", none, none, none, none⟩) (some "User") = .s "u1"
    ∧ convertDynamicValue
        (.users [⟨"u1", some "Alice", none, none, none⟩, ⟨"u2", none, none, none, none⟩])
        (some "User") = .s "Alice, u2" := by
  refine ⟨fun u => ?_, fun l => ?_, fun v => ?_, fun v => ?_, by rfl, by rfl, by rfl⟩
  · show StrOrNum.s (convertUserValue (.user u)) = _
    rw [show convertUserValue (.user u) = userDisplayJoin u from rfl,
        userDisplayJoin_eq_spec]
  · show StrOrNum.s (convertUserValue (.users l)) = _
    rw [show convertUserValue (.users l) = String.intercalate ", " (l.map userDisplayJoin)
          from rfl]
    congr 2
    exact List.map_congr_left fun u _ => userDisplayJoin_eq_spec u
  · unfold convertDynamicValue
    split
    · rfl
    · rfl
  · unfold convertDynamicValue
    split
    · rfl
    · rfl

/-- The dynamic set named by claim C2 (symbolic ui_type tags). -/
def claimDynamicUiTypes : List String :=
  ["SingleLink", "DuplexLink", "Lookup", "Formula", "User", "CreatedUser",
   "ModifiedUser", "Attachment"]

/-- Claim-side classification: symbolic ui_type in the dynamic set, or, when
the symbolic tag is absent, a numeric type code marking the field dynamic. -/
def claimDynamicField (f : LarkField) : Bool :=
  match f.ui_type with
  | some u => claimDynamicUiTypes.contains u
  | none => dynamicTypeNumbers.contains f.type

/-- C2: for every source field classified as dynamic in the claim's sense,
convertFieldDefinitions outputs a field definition with symbolic type `Text`
and numeric type 1, keeping the original field name (and at the same list
position, since the conversion is a map). -/
theorem convertFieldDefinitions_dynamic_to_text
    (fs : List LarkField) (f : LarkField) (hmem : f ∈ fs)
    (hdyn : claimDynamicField f = true) :
    convertFieldDef f =
      { field_name := f.field_name, type := 1, ui_type := some "Text", property := none }
    ∧ ({ field_name := f.field_name, type := 1, ui_type := some "Text",
         property := none } : ConvertedField) ∈ convertFieldDefinitions fs := by
  have hdy : isDynamicField f = true := by
    unfold claimDynamicField at hdyn
    unfold isDynamicField
    cases hu : f.ui_type with
    | some u =>
      rw [hu] at hdyn
      rw [Bool.or_eq_true]
      exact Or.inl hdyn
    | none =>
      rw [hu] at hdyn
      rw [Bool.or_eq_true]
      exact Or.inr hdyn
  have heq : convertFieldDef f =
      { field_name := f.field_name, type := 1, ui_type := some "Text",
        property := none } := by
    unfold convertFieldDef
    rw [hdy]
    simp
  exact ⟨heq, List.mem_map.mpr ⟨f, hmem, heq⟩⟩

/-- Witness for C2: a SingleLink field and a tag-less type-19 lookup field
both convert to Text. -/
theorem convertFieldDefinitions_dynamic_to_text_witness :
    convertFieldDef ⟨"f1", "rel", 18, some "SingleLink", none, none⟩ =
      { field_name := "rel", type := 1, ui_type := some "Text", property := none }
    ∧ ({ field_name := "lk", type := 1, ui_type := some "Text",
         property := none } : ConvertedField) ∈
        convertFieldDefinitions [⟨"f2", "lk", 19, none, none, none⟩] :=
  ⟨(convertFieldDefinitions_dynamic_to_text [⟨"f1", "rel", 18, some "SingleLink", none, none⟩]
      ⟨"f1", "rel", 18, some "SingleLink", none, none⟩ (List.mem_singleton.mpr rfl)
      (by decide)).1,
   (convertFieldDefinitions_dynamic_to_text [⟨"f2", "lk", 19, none, none, none⟩]
      ⟨"f2", "lk", 19, none, none, none⟩ (List.mem_singleton.mpr rfl) (by decide)).2⟩

/-- Counterexample to C3 as stated: record conversion is not the identity on
every non-dynamic field — a Number-typed field holding the string `"3.14"` is
re-parsed to the number 3.14; a static Email field (unsupported type 1051)
holding the number 5 is rewritten to the text `"5"`; and a static field whose
name is not among the target field names is not written at all. -/
theorem convertRecordValues_not_identity_on_every_static :
    convertRecordValues [("amount", .str "3.14")]
        [⟨"f1", "amount", 2, some "Number", none, none⟩] ["amount"]
      = [("amount", CellValue.num (parseFloat "3.14"))]
    ∧ parseFloat "3.14" = .fin (157 / 50)
    ∧ CellValue.num (parseFloat "3.14") ≠ CellValue.str "3.14"
    ∧ convertRecordValues [("mail", .num (.fin 5))]
        [⟨"f2", "mail", 1051, some "Email", none, none⟩] ["mail"]
      = [("mail", CellValue.str "5")]
    ∧ convertRecordValues [("t", .str "x")]
        [⟨"f3", "t", 1, some "Text", none, none⟩] []
      = [] := by
  refine ⟨rfl, ?_, ?_, by decide, by decide⟩
  · simp +decide [parseFloat, skipWs, parseDigits, digitsToNat]
    norm_num
  · intro h
    cases h

/-- C3 (amended): record conversion is the identity on plain static fields —
for every source field not classified as dynamic, whose ui_type is none of
Number/Currency/Progress/Rating, whose numeric type is not in the unsupported
list, and whose name is among the target field names, every non-null,
non-undefined cell value is written through unchanged into the converted
record map. -/
theorem convertRecordValues_identity_on_plain_static
    (fields : List (String × CellValue)) (tset : List String)
    (sfs : List LarkField) (f : LarkField) (v : CellValue)
    (hmem : f ∈ sfs)
    (hv : lookupField f.field_name fields = some v)
    (hnn : v ≠ .null)
    (htgt : f.field_name ∈ tset)
    (hnd : isDynamicField f = false)
    (hn1 : f.ui_type ≠ some "Number") (hn2 : f.ui_type ≠ some "Currency")
    (hn3 : f.ui_type ≠ some "Progress") (hn4 : f.ui_type ≠ some "Rating")
    (huns : UNSUPPORTED_TYPE_NUMBERS.contains f.type = false) :
    convertFieldValue fields tset f = some (f.field_name, v)
    ∧ (f.field_name, v) ∈ convertRecordValues fields sfs tset := by
  have huns2 : f.type ∉ UNSUPPORTED_TYPE_NUMBERS := by simpa using huns
  have h1 : convertFieldValue fields tset f = some (f.field_name, v) := by
    unfold convertFieldValue
    rw [hv]
    simp [htgt, hnn, hnd, hn1, hn2, hn3, hn4, huns2]
  exact ⟨h1, List.mem_filterMap.mpr ⟨f, hmem, h1⟩⟩

/-- Witness for amended C3: a Text field's string value passes through. -/
theorem convertRecordValues_identity_on_plain_static_witness :
    convertFieldValue [("t", .str "x")] ["t"] ⟨"f3", "t", 1, some "Text", none, none⟩
      = some ("t", CellValue.str "x")
    ∧ ("t", CellValue.str "x") ∈
        convertRecordValues [("t", .str "x")] [⟨"f3", "t", 1, some "Text", none, none⟩] ["t"] :=
  convertRecordValues_identity_on_plain_static
    [("t", .str "x")] ["t"] [⟨"f3", "t", 1, some "Text", none, none⟩]
    ⟨"f3", "t", 1, some "Text", none, none⟩ (.str "x")
    (List.mem_singleton.mpr rfl) (by decide) (by decide) (by decide) (by decide)
    (by decide) (by decide) (by decide) (by decide) (by decide)

/-- Counterexample to C4 as stated: a Number field holding the value Infinity
is written through (the code checks only `isNaN`, not finiteness), although
Infinity is not a finite number; and a field whose ui_type is `Number` but
whose numeric type code classifies it as dynamic (11) is not re-parsed at
all — its non-numeric text survives instead of the field being omitted. -/
theorem sanitizeNumber_keeps_nonfinite :
    convertRecordValues [("n", .num .posInf)]
        [⟨"f1", "n", 2, some "Number", none, none⟩] ["n"]
      = [("n", CellValue.num .posInf)]
    ∧ convertRecordValues [("m", .str "abc")]
        [⟨"f1", "m", 11, some "Number", none, none⟩] ["m"]
      = [("m", CellValue.str "abc")] := by
  exact ⟨by decide, by decide⟩

/-- C4 (amended): for every non-dynamic field whose ui_type is Number,
Currency, Progress, or Rating, convertRecordValues re-parses the cell value
from string or numeric input (the string "3.14" becomes the number 3.14) and
omits the field from the written record exactly when the re-parsed result is
NaN (for example the empty string or non-numeric text); non-finite infinite
results are kept. -/
theorem convertRecordValues_numeric_sanitization
    (fields : List (String × CellValue)) (tset : List String)
    (f : LarkField) (v : CellValue)
    (hnum : f.ui_type = some "Number" ∨ f.ui_type = some "Currency"
      ∨ f.ui_type = some "Progress" ∨ f.ui_type = some "Rating")
    (hnd : isDynamicField f = false)
    (htgt : f.field_name ∈ tset)
    (hv : lookupField f.field_name fields = some v)
    (hnn : v ≠ .null) :
    convertFieldValue fields tset f
      = (sanitizeNumberValue v).map (fun q => (f.field_name, CellValue.num q))
    ∧ (sanitizeNumberValue v = none →
        convertRecordValues fields [f] tset = [])
    ∧ parseFloat "3.14" = .fin (157 / 50)
    ∧ sanitizeNumberValue (.str "") = none
    ∧ sanitizeNumberValue (.str "hello") = none := by
  have h1 : convertFieldValue fields tset f
      = (sanitizeNumberValue v).map (fun q => (f.field_name, CellValue.num q)) := by
    unfold convertFieldValue
    rw [hv]
    simp [htgt, hnn, hnd]
    rw [if_pos hnum]
    cases h2 : sanitizeNumberValue v <;> simp [h2]
  refine ⟨h1, fun hnone => ?_, ?_, rfl, by decide⟩
  · unfold convertRecordValues
    simp [List.filterMap, h1, hnone]
  · simp +decide [parseFloat, skipWs, parseDigits, digitsToNat]
    norm_num

/-- Witness for amended C4: a Number field parses "3.14" to the number, and
omits the empty string. -/
theorem convertRecordValues_numeric_sanitization_witness :
    convertFieldValue [("amount", .str "3.14")] ["amount"]
        ⟨"f1", "amount", 2, some "Number", none, none⟩
      = (sanitizeNumberValue (.str "3.14")).map
          (fun q => ("amount", CellValue.num q))
    ∧ convertRecordValues [("amount", .str "")]
        [⟨"f1", "amount", 2, some "Number", none, none⟩] ["amount"] = [] :=
  ⟨(convertRecordValues_numeric_sanitization [("amount", .str "3.14")] ["amount"]
      ⟨"f1", "amount", 2, some "Number", none, none⟩ (.str "3.14")
      (Or.inl rfl) (by decide) (by decide) (by decide) (by decide)).1,
   (convertRecordValues_numeric_sanitization [("amount", .str "")] ["amount"]
      ⟨"f1", "amount", 2, some "Number", none, none⟩ (.str "")
      (Or.inl rfl) (by decide) (by decide) (by decide) (by decide)).2.1 (by decide)⟩

/-- A misbehaving server: every response carries the same truthy continuation
token `"t"` and no items. -/
def badTableServer : PagedServer LarkTable := fun _ _ => .ok ⟨some [], some "t"⟩

/-- Against `badTableServer` the `listTables` loop never exits, whatever the
fuel. -/
theorem badTableServer_never_stops (n : Nat) :
    ∀ k tok acc, listTablesAux badTableServer n k tok acc = none := by
  induction n with
  | zero => intro k tok acc; rfl
  | succ m ih =>
    intro k tok acc
    show listTablesAux badTableServer (m + 1) k tok acc = none
    unfold listTablesAux badTableServer
    simp only [tokTruthy, optTruthy]
    simp only [ne_eq, String.reduceEq, not_false_eq_true, if_true]
    exact ih (k + 1) (some "t") (acc ++ [])

/-- Counterexample to C5 as stated: `listTables` has neither the
repeated-token stop nor a page cap, so its pagination loop does not terminate
against a server that always returns the same continuation token. -/
theorem listTables_pagination_no_safeguard :
    ¬ listTablesTerminates badTableServer := by
  rintro ⟨fuel, h⟩
  rw [listTablesRun, badTableServer_never_stops fuel 0 none []] at h
  simp at h

/-- The safeguarded pagination loop exits within its page cap: with fuel
covering `maxPages - pageCount` further requests, the loop returns. -/
theorem listPagedAux_total {α : Type} (maxPages : Nat) (server : PagedServer α) :
    ∀ (fuel pageCount : Nat) (tok : Option String) (acc : List α),
      1 ≤ fuel → maxPages ≤ fuel + pageCount →
      (listPagedAux maxPages server fuel pageCount tok acc).isSome = true := by
  intro fuel
  induction fuel with
  | zero => intro pageCount tok acc h1 _; cases h1
  | succ f ih =>
    intro pageCount tok acc _ hcap
    show (listPagedAux maxPages server (f + 1) pageCount tok acc).isSome = true
    unfold listPagedAux
    cases server pageCount tok with
    | error e => rfl
    | ok resp =>
      simp only []
      split
      · rfl
      · split
        · rfl
        · split
          · rename_i hmax hloop
            have hlt : pageCount + 1 < maxPages := Nat.lt_of_not_le hmax
            have hf : 1 ≤ f := by omega
            exact ih (pageCount + 1) resp.page_token (acc ++ resp.items.getD [])
              hf (by omega)
          · rfl

/-- C5 (amended): listFields and listRecords page through continuation tokens
and, thanks to the repeated-token stop and the page caps (10 pages for
fields, 100 for records), always terminate within that many requests against
any server behaviour; listTables pages only until the server reports no more
pages, with neither safeguard. -/
theorem listFields_listRecords_always_terminate :
    (∀ server : PagedServer LarkField, (listFieldsRun server 10).isSome = true)
    ∧ (∀ server : PagedServer (String × List (String × CellValue)),
        (listRecordsRun server 100).isSome = true) :=
  ⟨fun server => listPagedAux_total 10 server 10 0 none [] (by omega) (by omega),
   fun server => listPagedAux_total 100 server 100 0 none [] (by omega) (by omega)⟩

/-- Witness for amended C5: the capped loops finish against the
constant-token server that defeats `listTables`. -/
theorem listFields_listRecords_always_terminate_witness :
    (listFieldsRun (fun _ _ => .ok ⟨some [], some "t"⟩) 10).isSome = true
    ∧ (listRecordsRun (fun _ _ => .ok ⟨some [], some "t"⟩) 100).isSome = true :=
  ⟨listFields_listRecords_always_terminate.1 (fun _ _ => .ok ⟨some [], some "t"⟩),
   listFields_listRecords_always_terminate.2 (fun _ _ => .ok ⟨some [], some "t"⟩)⟩

/-- C6: the with-fallback list variants absorb permission-denied style errors:
when the underlying call fails with such an error, listFieldsWithFallback and
listRecordsWithFallback return the empty list; listTablesWithFallback, when a
table id was embedded in the original URL, returns the single table descriptor
obtained for that id (the synthesized minimal one when the direct fetch also
fails), and re-raises the error when no id is present. -/
theorem withFallback_absorbs_permission_errors :
    (∀ (server : PagedServer LarkField) (fuel : Nat) (e : JsError),
      listFieldsRun server fuel = some (.error e) → permStyleListErr e = true →
      listFieldsWithFallbackRun server fuel = some (.ok []))
    ∧ (∀ (server : PagedServer (String × List (String × CellValue))) (fuel : Nat)
        (e : JsError),
      listRecordsRun server fuel = some (.error e) → permStyleListErr e = true →
      listRecordsWithFallbackRun server fuel = some (.ok []))
    ∧ (∀ (server : PagedServer LarkTable) (fuel : Nat) (e : JsError) (tid : String)
        (fetch : Except JsError LarkTable),
      listTablesRun server fuel = some (.error e) → permStyleTablesErr e = true →
      tid ≠ "" →
      listTablesWithFallbackRun server fuel (some tid) fetch
        = some (.ok [getTableRun fetch tid]))
    ∧ (∀ (server : PagedServer LarkTable) (fuel : Nat) (e : JsError)
        (fetch : Except JsError LarkTable),
      listTablesRun server fuel = some (.error e) →
      listTablesWithFallbackRun server fuel none fetch = some (.error e)) := by
  refine ⟨fun server fuel e hrun hperm => ?_, fun server fuel e hrun hperm => ?_,
    fun server fuel e tid fetch hrun hperm htid => ?_,
    fun server fuel e fetch hrun => ?_⟩
  · rw [listFieldsWithFallbackRun, hrun]
    simp [absorbPermErr, hperm]
  · rw [listRecordsWithFallbackRun, hrun]
    simp [absorbPermErr, hperm]
  · rw [listTablesWithFallbackRun, hrun]
    simp [tablesFallbackHandler, tokTruthy, optTruthy, htid, hperm]
  · rw [listTablesWithFallbackRun, hrun]
    simp [tablesFallbackHandler, tokTruthy, optTruthy]

/-- Witness for C6: a server failing with "permission denied" yields the empty
fallback lists, and with a table id in the URL a single synthesized table. -/
theorem withFallback_absorbs_permission_errors_witness :
    listFieldsWithFallbackRun (fun _ _ => .error ⟨"permission denied"⟩) 10
      = some (.ok [])
    ∧ listRecordsWithFallbackRun (fun _ _ => .error ⟨"permission denied"⟩) 100
      = some (.ok [])
    ∧ listTablesWithFallbackRun (fun _ _ => .error ⟨"permission denied"⟩) 5
        (some "tblX") (.error ⟨"no access"⟩)
      = some (.ok [⟨"tblX", "Table " ++ "tblX", 0⟩])
    ∧ listTablesWithFallbackRun (fun _ _ => .error ⟨"permission denied"⟩) 5
        none (.error ⟨"no access"⟩)
      = some (.error ⟨"permission denied"⟩) :=
  ⟨withFallback_absorbs_permission_errors.1 (fun _ _ => .error ⟨"permission denied"⟩)
      10 ⟨"permission denied"⟩ (by rfl) (by decide),
   withFallback_absorbs_permission_errors.2.1 (fun _ _ => .error ⟨"permission denied"⟩)
      100 ⟨"permission denied"⟩ (by rfl) (by decide),
   withFallback_absorbs_permission_errors.2.2.1 (fun _ _ => .error ⟨"permission denied"⟩)
      5 ⟨"permission denied"⟩ "tblX" (.error ⟨"no access"⟩) (by rfl) (by decide)
      (by decide),
   withFallback_absorbs_permission_errors.2.2.2 (fun _ _ => .error ⟨"permission denied"⟩)
      5 ⟨"permission denied"⟩ (.error ⟨"no access"⟩) (by rfl)⟩

/-- The per-table fold of `createSnapshot` decomposes per table: the errors
are the concatenation of every table's contribution in order, and the record
and field counters are the sums — each table is processed regardless of the
outcomes of the previous ones. -/
theorem snapFold_decomposes (env : SnapshotEnv) (srcTok tgtTok suffix : String) :
    ∀ (ts : List LarkTable) (errs : List SnapshotError) (recs fc : Nat),
      ts.foldl (snapFoldStep env srcTok tgtTok suffix) (errs, recs, fc)
        = (errs ++ (ts.map (tableStepErrors env srcTok tgtTok suffix)).flatten,
           recs + (ts.map (tableStepRecords env srcTok tgtTok suffix)).sum,
           fc + (ts.map (tableStepFields env srcTok tgtTok suffix)).sum) := by
  intro ts
  induction ts with
  | nil => intro errs recs fc; simp
  | cons t ts ih =>
    intro errs recs fc
    rw [List.foldl_cons]
    cases hp : env.processTable srcTok tgtTok t.table_id (snapTableName t suffix) with
    | ok newErrs n finc =>
      rw [show snapFoldStep env srcTok tgtTok suffix (errs, recs, fc) t
            = (errs ++ newErrs, recs + n, fc + finc) by
          unfold snapFoldStep; rw [hp]]
      rw [ih]
      simp [tableStepErrors, tableStepRecords, tableStepFields, hp, Nat.add_assoc]
    | err newErrs finc e =>
      rw [show snapFoldStep env srcTok tgtTok suffix (errs, recs, fc) t
            = (errs ++ (newErrs ++
                [⟨some t.name, none, none,
                  "Failed to process table: " ++ e.message, none⟩]),
               recs, fc + finc) by
          unfold snapFoldStep; rw [hp]]
      rw [ih]
      simp [tableStepErrors, tableStepRecords, tableStepFields, hp, Nat.add_assoc]

/-- C1: createSnapshot is a total function of the observed call outcomes (it
never raises); when the top-level setup (resolving the source URL, fetching
the source Base, creating the target Base, listing tables) fails, the result
carries success = false, empty source/target descriptors and exactly the one
top-level error entry; when setup succeeds, every selected table is
processed — the errors are the per-table contributions in order (plus the
grant step's) and the record count sums over all tables, so processing
continues past a failing table. -/
theorem createSnapshot_error_boundary (env : SnapshotEnv) (config : SnapshotConfig) :
    (∀ e, snapshotSetup env config = .error e →
      createSnapshot env config =
        { success := false
          sourceBase := ⟨"", "", none, some config.sourceBaseUrl⟩
          targetBase := ⟨"", config.targetBaseName, none, none⟩
          tablesProcessed := 0, recordsProcessed := 0, fieldsConverted := 0
          errors := [⟨none, none, none, e.message, none⟩]
          createdAt := env.nowIso })
    ∧ (∀ srcTok srcBase tgtBase tables,
        snapshotSetup env config = .ok (srcTok, srcBase, tgtBase, tables) →
        (createSnapshot env config).errors =
          ((selectTables config tables).map
            (tableStepErrors env srcTok tgtBase.app_token env.dateSuffix)).flatten
            ++ grantErrors env config
        ∧ (createSnapshot env config).recordsProcessed =
            ((selectTables config tables).map
              (tableStepRecords env srcTok tgtBase.app_token env.dateSuffix)).sum
        ∧ (createSnapshot env config).tablesProcessed = (selectTables config tables).length
        ∧ (createSnapshot env config).sourceBase = srcBase
        ∧ (createSnapshot env config).targetBase = tgtBase) := by
  constructor
  · intro e he
    unfold createSnapshot
    rw [he]
  · intro srcTok srcBase tgtBase tables hok
    unfold createSnapshot
    rw [hok]
    simp only [snapFold_decomposes]
    simp

/-- Witness for C1: a failing resolution yields the fatal single-error result;
with two tables of which the first throws, the second still contributes its
records. -/
def setupFailEnv : SnapshotEnv :=
  ⟨.error ⟨"boom"⟩, fun _ => .error ⟨"g"⟩, fun _ => .error ⟨"c"⟩, .error ⟨"l"⟩,
   fun _ _ _ _ => .ok [] 0 0, .ok (), "20260101", "2026-01-01T00:00:00.000Z"⟩

/-- A run whose setup succeeds, whose first table throws and whose second
processes 7 records. -/
def twoTablesEnv : SnapshotEnv :=
  ⟨.ok "src", fun _ => .ok ⟨"src", "Source", none, none⟩,
   fun nm => .ok ⟨"tgt", nm, none, none⟩,
   .ok [⟨"t1", "Alpha", 0⟩, ⟨"t2", "Beta", 0⟩],
   fun _ _ tid _ => if tid = "t1" then .err [] 0 ⟨"down"⟩ else .ok [] 7 2,
   .ok (), "20260101", "2026-01-01T00:00:00.000Z"⟩

/-- A plain configuration without table selection or admin grant. -/
def plainConfig : SnapshotConfig := ⟨"https://u", "Snap", false, none, none⟩

theorem createSnapshot_error_boundary_witness :
    createSnapshot setupFailEnv plainConfig =
      { success := false
        sourceBase := ⟨"", "", none, some "https://u"⟩
        targetBase := ⟨"", "Snap", none, none⟩
        tablesProcessed := 0, recordsProcessed := 0, fieldsConverted := 0
        errors := [⟨none, none, none, "boom", none⟩]
        createdAt := "2026-01-01T00:00:00.000Z" }
    ∧ (createSnapshot twoTablesEnv plainConfig).errors =
        (([⟨"t1", "Alpha", 0⟩, ⟨"t2", "Beta", 0⟩] : List LarkTable).map
          (tableStepErrors twoTablesEnv "src" "tgt" "20260101")).flatten
          ++ grantErrors twoTablesEnv plainConfig
    ∧ (createSnapshot twoTablesEnv plainConfig).recordsProcessed =
        (([⟨"t1", "Alpha", 0⟩, ⟨"t2", "Beta", 0⟩] : List LarkTable).map
          (tableStepRecords twoTablesEnv "src" "tgt" "20260101")).sum := by
  have h2 := (createSnapshot_error_boundary twoTablesEnv plainConfig).2
    "src" ⟨"src", "Source", none, none⟩ ⟨"tgt", "Snap", none, none⟩
    [⟨"t1", "Alpha", 0⟩, ⟨"t2", "Beta", 0⟩] rfl
  exact ⟨(createSnapshot_error_boundary setupFailEnv plainConfig).1 ⟨"boom"⟩ rfl,
    h2.1, h2.2.1⟩

/-- C10: in every result of createSnapshot the success flag is true exactly
when the errors array is empty, and the fatal setup path returns
success = false with exactly one error entry. -/
theorem createSnapshot_success_iff_no_errors (env : SnapshotEnv)
    (config : SnapshotConfig) :
    ((createSnapshot env config).success = true
      ↔ (createSnapshot env config).errors = [])
    ∧ (∀ e, snapshotSetup env config = .error e →
        (createSnapshot env config).success = false
        ∧ (createSnapshot env config).errors.length = 1) := by
  unfold createSnapshot
  cases h : snapshotSetup env config with
  | error e => exact ⟨by simp, fun x hx => by simp⟩
  | ok q =>
    obtain ⟨srcTok, srcBase, tgtBase, tables⟩ := q
    refine ⟨?_, fun x hx => by simp at hx⟩
    simp [List.isEmpty_iff]

/-- Witness for C10: the fatal path of the failing-resolution run has
success = false and one error. -/
theorem createSnapshot_success_iff_no_errors_witness :
    ((createSnapshot setupFailEnv plainConfig).success = false
      ∧ (createSnapshot setupFailEnv plainConfig).errors.length = 1)
    ∧ ((createSnapshot twoTablesEnv plainConfig).success = true
        ↔ (createSnapshot twoTablesEnv plainConfig).errors = []) :=
  ⟨(createSnapshot_success_iff_no_errors setupFailEnv plainConfig).2 ⟨"boom"⟩ rfl,
   (createSnapshot_success_iff_no_errors twoTablesEnv plainConfig).1⟩
